import Mathlib

set_option maxRecDepth 8000

/-!
Verification of the splink pair-sampling controller, dialect registry and
column-expression compiler (`splink/estimate_u.py`, `splink/dialects.py`,
`splink/column_expression.py`), shallowly embedded in Lean.

Python float arithmetic on the sampling formulas is modelled by exact real
numbers; Python integers by `ℕ`/`ℤ`; functions that can raise by
`Except`-valued functions whose error payload is the exception argument list.
-/

/-- `_rows_needed_for_n_pairs` from `splink/estimate_u.py`:
`sample_rows = 0.5 * ((8 * n_pairs + 1) ** 0.5 + 1)`, the positive solution
of `p = r(r-1)/2`.  Float arithmetic is modelled by exact reals, so
`** 0.5` on a nonnegative argument is `Real.sqrt`. -/
noncomputable def rows_needed_for_n_pairs (n_pairs : ℝ) : ℝ :=
  0.5 * (Real.sqrt (8 * n_pairs + 1) + 1)

/-- The dedupe branch of `estimate_u_values` (`splink/estimate_u.py` lines
86-87) followed by the shared clamps (lines 107-111):
`sample_size = _rows_needed_for_n_pairs(max_pairs)`,
`proportion = sample_size / total_nodes`, then
`if proportion >= 1.0: proportion = 1.0` and
`if sample_size > total_nodes: sample_size = total_nodes`.
Returns `(proportion, sample_size)`. -/
noncomputable def dedupe_sampling (total_nodes : ℕ) (max_pairs : ℝ) : ℝ × ℝ :=
  let sample_size := rows_needed_for_n_pairs max_pairs
  let proportion := sample_size / (total_nodes : ℝ)
  let proportion2 := if proportion ≥ 1.0 then 1.0 else proportion
  let sample_size2 :=
    if sample_size > (total_nodes : ℝ) then (total_nodes : ℝ) else sample_size
  (proportion2, sample_size2)

/-- `_proportion_sample_size_link_only` from `splink/estimate_u.py`:
`total_links = (sum(counts) ** 2 - sum(c ** 2 for c in counts)) / 2`,
`proportion = (max_pairs / total_links) ** 0.5`,
`sample_size = proportion * total_nodes`.  Returns
`(proportion, sample_size)`. -/
noncomputable def proportion_sample_size_link_only
    (row_counts_individual_dfs : List ℕ) (max_pairs : ℝ) : ℝ × ℝ :=
  let total_links : ℝ :=
    ((row_counts_individual_dfs.sum : ℝ) ^ 2
      - (((row_counts_individual_dfs.map (fun c => c ^ 2)).sum : ℕ) : ℝ)) / 2
  let total_nodes : ℝ := (row_counts_individual_dfs.sum : ℝ)
  let proportion := Real.sqrt (max_pairs / total_links)
  (proportion, proportion * total_nodes)

/-- The link-only branch of `estimate_u_values` (lines 89-105) followed by
the shared clamps (lines 107-111). -/
noncomputable def link_only_sampling (frame_counts : List ℕ) (max_pairs : ℝ) : ℝ × ℝ :=
  let ps := proportion_sample_size_link_only frame_counts max_pairs
  let total_nodes : ℝ := (frame_counts.sum : ℝ)
  let proportion := if ps.1 ≥ 1.0 then 1.0 else ps.1
  let sample_size := if ps.2 > total_nodes then total_nodes else ps.2
  (proportion, sample_size)

/-- Sum of pairwise products `Σ_{i<j} nᵢ·nⱼ` of a list of row counts: the
number of cross-dataset record pairs, as described by the code comment on
`_proportion_sample_size_link_only` ("total valid links is sum of pairwise
product of individual row counts"). -/
def pairwise_product_sum : List ℕ → ℕ
  | [] => 0
  | x :: xs => x * xs.sum + pairwise_product_sum xs

theorem sum_sq_eq_sq_sum_add_two_pairwise (l : List ℕ) :
    l.sum ^ 2 = (l.map (fun c => c ^ 2)).sum + 2 * pairwise_product_sum l := by
  induction l with
  | nil => simp [pairwise_product_sum]
  | cons x xs ih =>
    simp only [List.sum_cons, List.map_cons, pairwise_product_sum]
    have h : (x + xs.sum) ^ 2 = x ^ 2 + 2 * (x * xs.sum) + xs.sum ^ 2 := by ring
    rw [h, ih]; ring

/-- `_proportion_sample_size_link_only` with the fallibility of the Python
division made explicit: when `total_links` is zero, Python raises
`ZeroDivisionError("float division by zero")` at
`proportion = (max_pairs / total_links) ** 0.5`; this is modelled as an
`Except.error` carrying the exception message.  `total_links` is integer
arithmetic divided by 2, hence exact; it is computed in `ℚ` so that the
zero test is decidable. -/
noncomputable def proportion_sample_size_link_only_checked
    (row_counts : List ℕ) (max_pairs : ℚ) : Except String (ℝ × ℝ) :=
  let total_links : ℚ :=
    (((row_counts.sum : ℤ) ^ 2 - ((row_counts.map (fun c : ℕ => (c : ℤ) ^ 2)).sum) : ℤ) : ℚ) / 2
  let total_nodes : ℕ := row_counts.sum
  if total_links = 0 then .error ("float division by zero")
  else
    .ok (Real.sqrt ((max_pairs : ℝ) / (total_links : ℝ)),
      Real.sqrt ((max_pairs : ℝ) / (total_links : ℝ)) * (total_nodes : ℝ))

/-- The dedupe branch of `estimate_u_values` with the fallibility of
`proportion = sample_size / total_nodes` made explicit: `sample_size` is a
Python float, so a zero `total_nodes` raises
`ZeroDivisionError("float division by zero")`. -/
noncomputable def dedupe_sampling_checked (total_nodes : ℕ) (max_pairs : ℚ) :
    Except String (ℝ × ℝ) :=
  let sample_size := rows_needed_for_n_pairs (max_pairs : ℝ)
  if total_nodes = 0 then .error ("float division by zero")
  else .ok (sample_size / (total_nodes : ℝ), sample_size)

/-- Modelled from the spec: no `DegenerateInputError` exists anywhere in the
source; the spec (sections 4.3 and 7) requires that a zero `total_links` or
`total_nodes` input to the sampling controller "must be surfaced as a
`DegenerateInputError`", "reported with the offending counts".  This
definition renders that requirement: the error the spec demands for a
degenerate link-only input, naming both offending counts. -/
def link_only_sampling_spec_error (row_counts : List ℕ) : Option String :=
  let total_links := pairwise_product_sum row_counts
  let total_nodes := row_counts.sum
  if total_links = 0 ∨ total_nodes = 0 then
    some ("DegenerateInputError: total_links=" ++ toString total_links
      ++ ", total_nodes=" ++ toString total_nodes)
  else none

theorem int_cast_sum_sq (l : List ℕ) :
    (l.map (fun c : ℕ => (c : ℤ) ^ 2)).sum = (((l.map (fun c => c ^ 2)).sum : ℕ) : ℤ) := by
  induction l with
  | nil => simp
  | cons x xs ih =>
    simp only [List.map_cons, List.sum_cons]
    rw [ih]
    push_cast
    ring

/-- C1 (amended).  For total row count `N > 0` and target pair count
`0 ≤ P ≤ N(N-1)/2`, the dedupe sampling computation yields
`r = _rows_needed_for_n_pairs(P)` with `r(r-1)/2 = P` exactly,
`proportion = r/N ≤ 1` and `sample_size = r ≤ N` (both clamps are no-ops
under the premise), and the expected pair count
`proportion² · N(N-1)/2` equals `P + (r/2)(1 - proportion)`: it overshoots
`P` by at most `r/2`, but is not in general within rounding tolerance
of `P`. -/
theorem dedupe_sampling_correct (N : ℕ) (P : ℝ) (hN : 0 < N) (hP : 0 ≤ P)
    (hPmax : P ≤ (N : ℝ) * ((N : ℝ) - 1) / 2) :
    rows_needed_for_n_pairs P * (rows_needed_for_n_pairs P - 1) / 2 = P ∧
    (dedupe_sampling N P).1 = rows_needed_for_n_pairs P / (N : ℝ) ∧
    (dedupe_sampling N P).2 = rows_needed_for_n_pairs P ∧
    (dedupe_sampling N P).1 ≤ 1 ∧
    (dedupe_sampling N P).2 ≤ (N : ℝ) ∧
    (dedupe_sampling N P).1 ^ 2 * ((N : ℝ) * ((N : ℝ) - 1) / 2)
      = P + (rows_needed_for_n_pairs P / 2) * (1 - (dedupe_sampling N P).1) ∧
    P ≤ (dedupe_sampling N P).1 ^ 2 * ((N : ℝ) * ((N : ℝ) - 1) / 2) ∧
    (dedupe_sampling N P).1 ^ 2 * ((N : ℝ) * ((N : ℝ) - 1) / 2) - P
      ≤ rows_needed_for_n_pairs P / 2 := by
  have hN' : (0 : ℝ) < N := by exact_mod_cast hN
  have hN1 : (1 : ℝ) ≤ N := by exact_mod_cast hN
  have h8 : (0 : ℝ) ≤ 8 * P + 1 := by linarith
  obtain ⟨s, hs0, hs2, hsdef⟩ :
      ∃ s, 0 ≤ s ∧ s ^ 2 = 8 * P + 1 ∧ Real.sqrt (8 * P + 1) = s :=
    ⟨Real.sqrt (8 * P + 1), Real.sqrt_nonneg _, Real.sq_sqrt h8, rfl⟩
  have hr : rows_needed_for_n_pairs P = 0.5 * (s + 1) := by
    unfold rows_needed_for_n_pairs
    rw [hsdef]
  have hs1 : 1 ≤ s := by nlinarith [hs2, hP, hs0]
  have hsN : s ≤ 2 * (N : ℝ) - 1 := by nlinarith [hs2, hPmax, hN1, hs0]
  have hr1 : 1 ≤ rows_needed_for_n_pairs P := by rw [hr]; linarith
  have hrN : rows_needed_for_n_pairs P ≤ (N : ℝ) := by rw [hr]; linarith
  have key1 : rows_needed_for_n_pairs P * (rows_needed_for_n_pairs P - 1) / 2 = P := by
    rw [hr]
    linear_combination hs2 / 8
  have hp0 : 0 ≤ rows_needed_for_n_pairs P / (N : ℝ) :=
    div_nonneg (by linarith) (le_of_lt hN')
  have hp1 : rows_needed_for_n_pairs P / (N : ℝ) ≤ 1 :=
    (div_le_one hN').mpr hrN
  have hprop : (dedupe_sampling N P).1 = rows_needed_for_n_pairs P / (N : ℝ) := by
    show (if rows_needed_for_n_pairs P / (N : ℝ) ≥ 1.0 then (1.0 : ℝ)
      else rows_needed_for_n_pairs P / (N : ℝ)) = rows_needed_for_n_pairs P / (N : ℝ)
    split_ifs with h
    · norm_num at h ⊢
      linarith
    · rfl
  have hss : (dedupe_sampling N P).2 = rows_needed_for_n_pairs P := by
    show (if rows_needed_for_n_pairs P > (N : ℝ) then ((N : ℕ) : ℝ)
      else rows_needed_for_n_pairs P) = rows_needed_for_n_pairs P
    rw [if_neg (not_lt.mpr hrN)]
  have hP2 : P = (s ^ 2 - 1) / 8 := by linarith [hs2]
  have hident : (dedupe_sampling N P).1 ^ 2 * ((N : ℝ) * ((N : ℝ) - 1) / 2)
      = P + (rows_needed_for_n_pairs P / 2) * (1 - (dedupe_sampling N P).1) := by
    rw [hprop, hr, hP2]
    have hNne : (N : ℝ) ≠ 0 := ne_of_gt hN'
    field_simp
    ring
  refine ⟨key1, hprop, hss, ?_, ?_, hident, ?_, ?_⟩
  · rw [hprop]; exact hp1
  · rw [hss]; exact hrN
  · have h1 : 0 ≤ (rows_needed_for_n_pairs P / 2) * (1 - (dedupe_sampling N P).1) := by
      rw [hprop]
      apply mul_nonneg (by linarith) (by linarith)
    linarith [hident]
  · have h2 : (rows_needed_for_n_pairs P / 2) * (1 - (dedupe_sampling N P).1)
        ≤ rows_needed_for_n_pairs P / 2 := by
      rw [hprop]
      nlinarith [hp0, hr1]
    linarith [hident]

/-- Witness for `dedupe_sampling_correct` at `N = 3`, `P = 3`. -/
theorem dedupe_sampling_correct_witness :
    (0 < 3 ∧ (0 : ℝ) ≤ 3 ∧ (3 : ℝ) ≤ ((3 : ℕ) : ℝ) * (((3 : ℕ) : ℝ) - 1) / 2) ∧
    (rows_needed_for_n_pairs 3 * (rows_needed_for_n_pairs 3 - 1) / 2 = 3 ∧
    (dedupe_sampling 3 3).1 = rows_needed_for_n_pairs 3 / ((3 : ℕ) : ℝ) ∧
    (dedupe_sampling 3 3).2 = rows_needed_for_n_pairs 3 ∧
    (dedupe_sampling 3 3).1 ≤ 1 ∧
    (dedupe_sampling 3 3).2 ≤ ((3 : ℕ) : ℝ) ∧
    (dedupe_sampling 3 3).1 ^ 2 * (((3 : ℕ) : ℝ) * (((3 : ℕ) : ℝ) - 1) / 2)
      = 3 + (rows_needed_for_n_pairs 3 / 2) * (1 - (dedupe_sampling 3 3).1) ∧
    (3 : ℝ) ≤ (dedupe_sampling 3 3).1 ^ 2 * (((3 : ℕ) : ℝ) * (((3 : ℕ) : ℝ) - 1) / 2) ∧
    (dedupe_sampling 3 3).1 ^ 2 * (((3 : ℕ) : ℝ) * (((3 : ℕ) : ℝ) - 1) / 2) - 3
      ≤ rows_needed_for_n_pairs 3 / 2) :=
  ⟨⟨by norm_num, by norm_num, by norm_num⟩,
    dedupe_sampling_correct 3 3 (by norm_num) (by norm_num) (by norm_num)⟩

/-- Counterexample to C1 as stated: at `N = 1000000`, `P = 49995000`
(so `r = 10000` and `proportion = 1/100`), the expected pair count
`proportion² · N(N-1)/2` exceeds the target `P` by exactly `4950` pairs —
not within rounding tolerance of `P`. -/
theorem dedupe_sampling_tolerance_counterexample :
    (dedupe_sampling 1000000 49995000).1 ^ 2
        * (((1000000 : ℕ) : ℝ) * (((1000000 : ℕ) : ℝ) - 1) / 2)
      - 49995000 = 4950 := by
  have hsqrt : Real.sqrt (8 * 49995000 + 1) = 19999 := by
    rw [show (8 * 49995000 + 1 : ℝ) = 19999 ^ 2 by norm_num,
      Real.sqrt_sq (by norm_num : (0 : ℝ) ≤ 19999)]
  have hrows : rows_needed_for_n_pairs 49995000 = 10000 := by
    unfold rows_needed_for_n_pairs
    rw [hsqrt]
    norm_num
  have hprop : (dedupe_sampling 1000000 49995000).1 = 10000 / 1000000 := by
    show (if rows_needed_for_n_pairs 49995000 / ((1000000 : ℕ) : ℝ) ≥ 1.0 then (1.0 : ℝ)
      else rows_needed_for_n_pairs 49995000 / ((1000000 : ℕ) : ℝ)) = 10000 / 1000000
    rw [hrows, if_neg]
    · norm_num
    · push_cast
      norm_num
  rw [hprop]
  push_cast
  norm_num

/-- C2.  For a list of per-dataset row counts with at least one
cross-dataset pair and any target pair count `P ≥ 0`:
`total_links = ((Σn)² - Σn²)/2` equals the sum of pairwise products of the
counts exactly; `_proportion_sample_size_link_only` returns
`proportion = sqrt(P / total_links)` and `sample_size = proportion · Σn`;
and after the caller's clamps (`estimate_u_values` lines 107-111) the
proportion is at most 1 and the sample size at most `Σn`. -/
theorem proportion_sample_size_link_only_correct (counts : List ℕ) (P : ℝ)
    (hcross : 0 < pairwise_product_sum counts) (hP : 0 ≤ P) :
    ((counts.sum : ℝ) ^ 2 - (((counts.map (fun c => c ^ 2)).sum : ℕ) : ℝ)) / 2
        = (pairwise_product_sum counts : ℝ) ∧
    (proportion_sample_size_link_only counts P).1
        = Real.sqrt (P / (pairwise_product_sum counts : ℝ)) ∧
    (proportion_sample_size_link_only counts P).2
        = (proportion_sample_size_link_only counts P).1 * (counts.sum : ℝ) ∧
    (link_only_sampling counts P).1 ≤ 1 ∧
    (link_only_sampling counts P).2 ≤ (counts.sum : ℝ) := by
  have hnat := sum_sq_eq_sq_sum_add_two_pairwise counts
  have hcast : (counts.sum : ℝ) ^ 2
      = (((counts.map (fun c => c ^ 2)).sum : ℕ) : ℝ)
        + 2 * (pairwise_product_sum counts : ℝ) := by
    exact_mod_cast hnat
  have htl : ((counts.sum : ℝ) ^ 2 - (((counts.map (fun c => c ^ 2)).sum : ℕ) : ℝ)) / 2
      = (pairwise_product_sum counts : ℝ) := by linarith
  refine ⟨htl, ?_, rfl, ?_, ?_⟩
  · show Real.sqrt (P / (((counts.sum : ℝ) ^ 2
      - (((counts.map (fun c => c ^ 2)).sum : ℕ) : ℝ)) / 2))
        = Real.sqrt (P / (pairwise_product_sum counts : ℝ))
    rw [htl]
  · show (if (proportion_sample_size_link_only counts P).1 ≥ 1.0 then (1.0 : ℝ)
      else (proportion_sample_size_link_only counts P).1) ≤ 1
    split_ifs with h
    · norm_num
    · norm_num at h
      linarith
  · show (if (proportion_sample_size_link_only counts P).2 > (counts.sum : ℝ)
      then ((counts.sum : ℕ) : ℝ)
      else (proportion_sample_size_link_only counts P).2) ≤ (counts.sum : ℝ)
    split_ifs with h
    · exact le_refl _
    · exact not_lt.mp h

/-- Witness for `proportion_sample_size_link_only_correct` at
`counts = [1, 2]`, `P = 8`. -/
theorem proportion_sample_size_link_only_correct_witness :
    (0 < pairwise_product_sum [1, 2] ∧ (0 : ℝ) ≤ 8) ∧
    ((([1, 2] : List ℕ).sum : ℝ) ^ 2
        - (((([1, 2] : List ℕ).map (fun c => c ^ 2)).sum : ℕ) : ℝ)) / 2
        = (pairwise_product_sum [1, 2] : ℝ) ∧
    (proportion_sample_size_link_only [1, 2] 8).1
        = Real.sqrt (8 / (pairwise_product_sum [1, 2] : ℝ)) ∧
    (proportion_sample_size_link_only [1, 2] 8).2
        = (proportion_sample_size_link_only [1, 2] 8).1 * (([1, 2] : List ℕ).sum : ℝ) ∧
    (link_only_sampling [1, 2] 8).1 ≤ 1 ∧
    (link_only_sampling [1, 2] 8).2 ≤ (([1, 2] : List ℕ).sum : ℝ) :=
  ⟨⟨by decide, by norm_num⟩,
    proportion_sample_size_link_only_correct [1, 2] 8 (by decide) (by norm_num)⟩


/-- C3 (amended).  When `total_links` (link-only branch) or `total_nodes`
(dedupe branch) is zero, the sampling computation fails — with Python's
plain `ZeroDivisionError("float division by zero")`, not silently with
NaN/Inf; no `DegenerateInputError` exists in the code and the offending
counts are not reported. -/
theorem degenerate_input_zero_division (counts : List ℕ) (P : ℚ) (N : ℕ)
    (hzero : pairwise_product_sum counts = 0) (hN : N = 0) :
    proportion_sample_size_link_only_checked counts P
        = .error ("float division by zero") ∧
    dedupe_sampling_checked N P = .error ("float division by zero") := by
  constructor
  · have hnat := sum_sq_eq_sq_sum_add_two_pairwise counts
    rw [hzero] at hnat
    have hz : ((counts.sum : ℤ) ^ 2 - (counts.map (fun c : ℕ => (c : ℤ) ^ 2)).sum) = 0 := by
      rw [int_cast_sum_sq]
      have : ((counts.sum : ℤ)) ^ 2 = (((counts.map (fun c => c ^ 2)).sum : ℕ) : ℤ) := by
        exact_mod_cast (by omega : counts.sum ^ 2 = (counts.map (fun c => c ^ 2)).sum)
      omega
    unfold proportion_sample_size_link_only_checked
    rw [if_pos]
    rw [hz]
    norm_num
  · unfold dedupe_sampling_checked
    rw [hN, if_pos rfl]

/-- Witness for `degenerate_input_zero_division` at `counts = [5]`
(a single dataset has no cross-dataset pair), `P = 100`, `N = 0`. -/
theorem degenerate_input_zero_division_witness :
    (pairwise_product_sum [5] = 0 ∧ (0 : ℕ) = 0) ∧
    (proportion_sample_size_link_only_checked [5] 100
        = .error ("float division by zero") ∧
    dedupe_sampling_checked 0 100 = .error ("float division by zero")) :=
  ⟨⟨by decide, rfl⟩, degenerate_input_zero_division [5] 100 0 (by decide) rfl⟩

/-- Counterexample to C3 as stated: on the degenerate input `[5]` (one
dataset, zero cross-dataset pairs) the link-only sampling computation fails
with a bare `ZeroDivisionError` whose message is not the
`DegenerateInputError` the spec demands and does not report the offending
counts (it does not even contain the count `5`). -/
theorem degenerate_input_error_counterexample :
    proportion_sample_size_link_only_checked [5] 100
        = .error ("float division by zero") ∧
    link_only_sampling_spec_error [5]
        = some ("DegenerateInputError: total_links=0, total_nodes=5") ∧
    ("float division by zero") ≠ ("DegenerateInputError: total_links=0, total_nodes=5") ∧
    ¬ (("5").toList <:+: ("float division by zero").toList) := by
  refine ⟨?_, by decide, by decide, by decide⟩
  unfold proportion_sample_size_link_only_checked
  rw [if_pos]
  norm_num

/-- The five concrete subclasses of `SplinkDialect` defined in
`splink/dialects.py`, in definition order (which is the order
`cls.__subclasses__()` reports them). -/
inductive SplinkDialect
  | duckdb
  | spark
  | sqlite
  | postgres
  | athena
deriving DecidableEq, Repr

/-- The `name` property of each dialect subclass. -/
def SplinkDialect.name : SplinkDialect → String
  | .duckdb => "duckdb"
  | .spark => "spark"
  | .sqlite => "sqlite"
  | .postgres => "postgres"
  | .athena => "athena"

/-- The `_dialect_name_for_factory` class attribute of each subclass. -/
def SplinkDialect.dialect_name_for_factory : SplinkDialect → String
  | .duckdb => "duckdb"
  | .spark => "spark"
  | .sqlite => "sqlite"
  | .postgres => "postgres"
  | .athena => "athena"

/-- The `sqlglot_name` property: the base class returns `self.name`;
`AthenaDialect` overrides it to return `"presto"`. -/
def SplinkDialect.sqlglot_name : SplinkDialect → String
  | .athena => "presto"
  | d => d.name

/-- `cls.__subclasses__()` for `SplinkDialect`. -/
def SplinkDialect.subclasses : List SplinkDialect :=
  [.duckdb, .spark, .sqlite, .postgres, .athena]

/-- Python `str` of each subclass object, used only in the
multiple-matches error message of `from_string`. -/
def SplinkDialect.class_str : SplinkDialect → String
  | .duckdb => "<class 'splink.dialects.DuckDBDialect'>"
  | .spark => "<class 'splink.dialects.SparkDialect'>"
  | .sqlite => "<class 'splink.dialects.SQLiteDialect'>"
  | .postgres => "<class 'splink.dialects.PostgresDialect'>"
  | .athena => "<class 'splink.dialects.AthenaDialect'>"

/-- `SplinkDialect.from_string`: filter the subclasses on
`_dialect_name_for_factory == dialect_name`; exactly one match returns its
instance, otherwise a `ValueError` is raised (modelled as `.error` with the
exception argument list). -/
def SplinkDialect.from_string (dialect_name : String) : Except (List String) SplinkDialect :=
  let classes_from_dialect_name :=
    SplinkDialect.subclasses.filter
      (fun c => c.dialect_name_for_factory == dialect_name)
  match classes_from_dialect_name with
  | [subclass] => .ok subclass
  | classes =>
    if classes.length > 1 then
      .error ["Found multiple subclasses of `SplinkDialect` with lookup string "
        ++ "`_dialect_name_for_factory` equal to supplied value " ++ dialect_name
        ++ ": " ++ String.intercalate (", ") (classes.map SplinkDialect.class_str) ++ "!"]
    else
      .error ["Could not find subclass of `SplinkDialect` with lookup string '"
        ++ dialect_name ++ "'."]

/-- Python truthiness of the optional integer `seed` argument: the dialect
methods test `if seed:`, so both `None` and `0` are falsy. -/
def seedTruthy : Option ℤ → Bool
  | none => false
  | some s => s != 0

/-- Python `int()` applied to a float: truncation toward zero. -/
def pyInt (q : ℚ) : ℤ :=
  if q ≥ 0 then ⌊q⌋ else -⌊-q⌋

/-- Python `round()` applied to a float: round half to even. -/
def pyRound (q : ℚ) : ℤ :=
  let f := ⌊q⌋
  let frac := q - (f : ℚ)
  if frac < 1 / 2 then f
  else if frac > 1 / 2 then f + 1
  else if f % 2 = 0 then f else f + 1

/-- `random_sample_sql` per dialect (`splink/dialects.py`).  `fmt` renders
a Python float into its interpolated decimal text (Python float `repr` is
abstracted as a parameter; no claim depends on it), integers interpolate
exactly via `toString`.  DuckDB, Spark, SQLite and Postgres return the
empty clause at `proportion == 1.0`; SQLite and Postgres raise
`NotImplementedError` for a truthy seed (SQLite passes two separate
message arguments, Postgres one adjacent-literal-concatenated string);
`AthenaDialect` has no override, so the base method always raises. -/
def random_sample_sql (fmt : ℚ → String) (d : SplinkDialect)
    (proportion sample_size : ℚ) (seed : Option ℤ) : Except (List String) String :=
  match d with
  | .duckdb =>
    if proportion = 1.0 then .ok ("")
    else
      let percent := proportion * 100
      if seedTruthy seed then
        .ok ("USING SAMPLE bernoulli(" ++ fmt percent ++ "%) REPEATABLE("
          ++ toString (seed.getD 0) ++ ")")
      else
        .ok ("USING SAMPLE " ++ fmt percent ++ "% (bernoulli)")
  | .spark =>
    if proportion = 1.0 then .ok ("")
    else
      let percent := proportion * 100
      if seedTruthy seed then
        .ok (" ORDER BY rand(" ++ toString (seed.getD 0) ++ ") LIMIT "
          ++ toString (pyRound sample_size))
      else
        .ok (" TABLESAMPLE (" ++ fmt percent ++ " PERCENT) ")
  | .sqlite =>
    if proportion = 1.0 then .ok ("")
    else if seedTruthy seed then
      .error ["SQLite does not support seeds in random ",
        "samples. Please remove the `seed` parameter."]
    else
      .ok ("ORDER BY RANDOM()\n            LIMIT " ++ toString (pyInt sample_size)
        ++ "\n            ")
  | .postgres =>
    if proportion = 1.0 then .ok ("")
    else if seedTruthy seed then
      .error ["Postgres does not support seeds in random samples. Please remove the `seed` parameter."]
    else
      .ok ("ORDER BY RANDOM()\n            LIMIT " ++ toString (pyInt sample_size)
        ++ "\n            ")
  | .athena =>
    .error ["Backend 'athena' needs a random_sample_sql added to its dialect"]

/-- `_regex_extract_raw` per dialect.  DuckDB and Spark emit
`regexp_extract(name, 'pattern', group)`; Postgres wraps the pattern in
parentheses for capture group 0, raises `ValueError` for capture groups
above 1, and emits `substring(name from 'pattern')`; SQLite and Athena do
not override the base method, which raises `NotImplementedError`. -/
def regex_extract_raw (d : SplinkDialect) (name pattern : String)
    (capture_group : ℤ) : Except (List String) String :=
  match d with
  | .duckdb =>
    .ok ("regexp_extract(" ++ name ++ ", '" ++ pattern ++ "', "
      ++ toString capture_group ++ ")")
  | .spark =>
    .ok ("regexp_extract(" ++ name ++ ", '" ++ pattern ++ "', "
      ++ toString capture_group ++ ")")
  | .postgres =>
    let pattern2 := if capture_group = 0 then "(" ++ pattern ++ ")" else pattern
    if capture_group > 1 then
      .error ["'postgres' backend does not currently support a capture_group greater "
        ++ "than 1. To proceed you must use your own SQL expression"]
    else
      .ok ("substring(" ++ name ++ " from '" ++ pattern2 ++ "')")
  | .sqlite => .error ["Backend 'sqlite' does not have a 'regex_extract' function"]
  | .athena => .error ["Backend 'athena' does not have a 'regex_extract' function"]

/-- `SplinkDialect._wrap_in_nullif` applied to a fallible SQL fragment:
a successful result is wrapped as `NULLIF(<raw>, '')`; an exception raised
by the wrapped function propagates unchanged. -/
def wrap_in_nullif (r : Except (List String) String) : Except (List String) String :=
  r.map (fun s => "NULLIF(" ++ s ++ ", '')")

/-- `SplinkDialect.regex_extract` (marked `@final` in the source): the raw
per-backend extractor wrapped in the shared NULL-on-empty decorator. -/
def regex_extract (d : SplinkDialect) (name pattern : String)
    (capture_group : ℤ) : Except (List String) String :=
  wrap_in_nullif (regex_extract_raw d name pattern capture_group)

/-- `DuckDBDialect.explode_arrays_sql`: base case (no columns left to
explode) selects the retained columns from the table; otherwise `pop()`
removes the LAST column to explode, selects
`unnest(col) as col` together with all retained columns and the columns
still to explode, and recurses on the remaining columns with the popped
column appended to the retained ones.  (The `.copy()` calls in the source
only shield the caller's lists from mutation; lists here are values.) -/
def duckdb_explode_arrays_sql (tbl_name : String)
    (columns_to_explode other_columns_to_retain : List String) : String :=
  if h : columns_to_explode = [] then
    "select " ++ String.intercalate (",") other_columns_to_retain ++ " from " ++ tbl_name
  else
    let column_to_explode := columns_to_explode.getLastD ("")
    let remaining := columns_to_explode.dropLast
    "select " ++ String.intercalate (",")
        (("unnest(" ++ column_to_explode ++ ") as " ++ column_to_explode)
          :: (other_columns_to_retain ++ remaining))
      ++ "\n                from ("
      ++ duckdb_explode_arrays_sql tbl_name remaining
          (other_columns_to_retain ++ [column_to_explode])
      ++ ")"
termination_by columns_to_explode.length
decreasing_by
  simp only [List.length_dropLast]
  have hne : columns_to_explode.length ≠ 0 := fun hl => h (List.length_eq_zero.mp hl)
  omega

/-- `SparkDialect.explode_arrays_sql`: identical recursion with the
`explode` keyword (the source computes `cols_to_select` inside the `else`
and returns outside it; since the `if` branch returns early the shapes are
equivalent). -/
def spark_explode_arrays_sql (tbl_name : String)
    (columns_to_explode other_columns_to_retain : List String) : String :=
  if h : columns_to_explode = [] then
    "select " ++ String.intercalate (",") other_columns_to_retain ++ " from " ++ tbl_name
  else
    let column_to_explode := columns_to_explode.getLastD ("")
    let remaining := columns_to_explode.dropLast
    "select " ++ String.intercalate (",")
        (("explode(" ++ column_to_explode ++ ") as " ++ column_to_explode)
          :: (other_columns_to_retain ++ remaining))
      ++ "\n                from ("
      ++ spark_explode_arrays_sql tbl_name remaining
          (other_columns_to_retain ++ [column_to_explode])
      ++ ")"
termination_by columns_to_explode.length
decreasing_by
  simp only [List.length_dropLast]
  have hne : columns_to_explode.length ≠ 0 := fun hl => h (List.length_eq_zero.mp hl)
  omega

/-- Number of (possibly overlapping) occurrences of `pat` at any starting
position of `s`. -/
def countOccAux (pat : List Char) : List Char → ℕ
  | [] => 0
  | c :: rest => (if pat.isPrefixOf (c :: rest) then 1 else 0) + countOccAux pat rest

/-- Occurrence count of a pattern string inside a subject string. -/
def countOcc (pat s : String) : ℕ :=
  countOccAux pat.toList s.toList

/-- C4 (amended).  For every float formatter, sample size and seed:
`random_sample_sql` with proportion exactly 1.0 returns the empty clause
on the four dialects that implement it (duckdb, spark, sqlite, postgres),
but `AthenaDialect` has no implementation, so on athena the call raises
`NotImplementedError` even at proportion 1.0. -/
theorem random_sample_sql_proportion_one (fmt : ℚ → String)
    (sample_size : ℚ) (seed : Option ℤ) :
    random_sample_sql fmt .duckdb 1.0 sample_size seed = .ok ("") ∧
    random_sample_sql fmt .spark 1.0 sample_size seed = .ok ("") ∧
    random_sample_sql fmt .sqlite 1.0 sample_size seed = .ok ("") ∧
    random_sample_sql fmt .postgres 1.0 sample_size seed = .ok ("") ∧
    random_sample_sql fmt .athena 1.0 sample_size seed
      = .error ["Backend 'athena' needs a random_sample_sql added to its dialect"] := by
  refine ⟨?_, ?_, ?_, ?_, rfl⟩ <;> simp [random_sample_sql]

/-- Counterexample to C4 as stated: `AthenaDialect` does not override
`random_sample_sql`, so on the athena dialect a proportion of 1.0 raises
`NotImplementedError` instead of returning an empty clause. -/
theorem athena_random_sample_counterexample :
    random_sample_sql (fun q => toString q) .athena 1.0 100 none
      = .error ["Backend 'athena' needs a random_sample_sql added to its dialect"] :=
  rfl

/-- C5 (amended).  For every proportion strictly below 1.0 and every
truthy seed (non-`None` and non-zero; `if seed:` uses Python truthiness,
so a seed of 0 is treated as absent), SQLite and Postgres raise
`NotImplementedError` whose message names the `seed` option and the
backend. -/
theorem seeded_sample_unsupported (fmt : ℚ → String)
    (proportion sample_size : ℚ) (s : ℤ)
    (hprop : proportion < 1) (hs : s ≠ 0) :
    random_sample_sql fmt .sqlite proportion sample_size (some s)
      = .error ["SQLite does not support seeds in random ",
        "samples. Please remove the `seed` parameter."] ∧
    random_sample_sql fmt .postgres proportion sample_size (some s)
      = .error ["Postgres does not support seeds in random samples. Please remove the `seed` parameter."] ∧
    (("seed").toList <:+: ("samples. Please remove the `seed` parameter.").toList) ∧
    (("SQLite").toList <:+: ("SQLite does not support seeds in random ").toList) ∧
    (("seed").toList
      <:+: ("Postgres does not support seeds in random samples. Please remove the `seed` parameter.").toList) ∧
    (("Postgres").toList
      <:+: ("Postgres does not support seeds in random samples. Please remove the `seed` parameter.").toList) := by
  have hne : proportion ≠ 1.0 := by
    intro h
    rw [h] at hprop
    norm_num at hprop
  have htruthy : seedTruthy (some s) = true := by simp [seedTruthy, hs]
  refine ⟨?_, ?_, by decide, by decide, by decide, by decide⟩ <;>
    simp [random_sample_sql, hne, htruthy]

/-- Witness for `seeded_sample_unsupported` at proportion 1/2, sample size
10, seed 42. -/
theorem seeded_sample_unsupported_witness :
    ((1 / 2 : ℚ) < 1 ∧ (42 : ℤ) ≠ 0) ∧
    (random_sample_sql (fun q => toString q) .sqlite (1 / 2) 10 (some 42)
      = .error ["SQLite does not support seeds in random ",
        "samples. Please remove the `seed` parameter."] ∧
    random_sample_sql (fun q => toString q) .postgres (1 / 2) 10 (some 42)
      = .error ["Postgres does not support seeds in random samples. Please remove the `seed` parameter."] ∧
    (("seed").toList <:+: ("samples. Please remove the `seed` parameter.").toList) ∧
    (("SQLite").toList <:+: ("SQLite does not support seeds in random ").toList) ∧
    (("seed").toList
      <:+: ("Postgres does not support seeds in random samples. Please remove the `seed` parameter.").toList) ∧
    (("Postgres").toList
      <:+: ("Postgres does not support seeds in random samples. Please remove the `seed` parameter.").toList)) :=
  ⟨⟨by norm_num, by norm_num⟩,
    seeded_sample_unsupported (fun q => toString q) (1 / 2) 10 42
      (by norm_num) (by norm_num)⟩

/-- Counterexample to C5 as stated: a seed of `0` is non-`None` but falsy,
so `if seed:` skips the raise and SQLite/Postgres happily return an
unseeded sampling clause. -/
theorem seeded_sample_zero_seed_counterexample :
    random_sample_sql (fun q => toString q) .sqlite (1 / 2) 10 (some 0)
      = .ok ("ORDER BY RANDOM()\n            LIMIT 10\n            ") ∧
    random_sample_sql (fun q => toString q) .postgres (1 / 2) 10 (some 0)
      = .ok ("ORDER BY RANDOM()\n            LIMIT 10\n            ") := by
  have hfloor : pyInt 10 = 10 := by norm_num [pyInt]
  constructor <;>
  · simp only [random_sample_sql, seedTruthy, hfloor]
    rw [if_neg (by norm_num : ¬ ((1 / 2 : ℚ) = 1.0))]
    rfl

/-- C6 (amended).  Each of the five recognized keys resolves to its
dialect; every other string fails with a `ValueError` naming the offending
key — but not listing the valid keys. -/
theorem from_string_resolution (s : String)
    (hs : s ∉ ["duckdb", "spark", "sqlite", "postgres", "athena"]) :
    SplinkDialect.from_string "duckdb" = .ok .duckdb ∧
    SplinkDialect.from_string "spark" = .ok .spark ∧
    SplinkDialect.from_string "sqlite" = .ok .sqlite ∧
    SplinkDialect.from_string "postgres" = .ok .postgres ∧
    SplinkDialect.from_string "athena" = .ok .athena ∧
    SplinkDialect.from_string s
      = .error ["Could not find subclass of `SplinkDialect` with lookup string '"
          ++ s ++ "'."] := by
  refine ⟨rfl, rfl, rfl, rfl, rfl, ?_⟩
  simp only [List.mem_cons, List.not_mem_nil, not_or, or_false] at hs
  obtain ⟨h1, h2, h3, h4, h5⟩ := hs
  have f1 : (SplinkDialect.dialect_name_for_factory .duckdb == s) = false := by
    simp [SplinkDialect.dialect_name_for_factory]
    exact fun h => h1 h.symm
  have f2 : (SplinkDialect.dialect_name_for_factory .spark == s) = false := by
    simp [SplinkDialect.dialect_name_for_factory]
    exact fun h => h2 h.symm
  have f3 : (SplinkDialect.dialect_name_for_factory .sqlite == s) = false := by
    simp [SplinkDialect.dialect_name_for_factory]
    exact fun h => h3 h.symm
  have f4 : (SplinkDialect.dialect_name_for_factory .postgres == s) = false := by
    simp [SplinkDialect.dialect_name_for_factory]
    exact fun h => h4 h.symm
  have f5 : (SplinkDialect.dialect_name_for_factory .athena == s) = false := by
    simp [SplinkDialect.dialect_name_for_factory]
    exact fun h => h5 h.symm
  unfold SplinkDialect.from_string
  simp [SplinkDialect.subclasses, List.filter_cons, f1, f2, f3, f4, f5]

/-- Witness for `from_string_resolution` at the unknown key `"mysql"`. -/
theorem from_string_resolution_witness :
    (("mysql" : String) ∉ ["duckdb", "spark", "sqlite", "postgres", "athena"]) ∧
    (SplinkDialect.from_string "duckdb" = .ok .duckdb ∧
    SplinkDialect.from_string "spark" = .ok .spark ∧
    SplinkDialect.from_string "sqlite" = .ok .sqlite ∧
    SplinkDialect.from_string "postgres" = .ok .postgres ∧
    SplinkDialect.from_string "athena" = .ok .athena ∧
    SplinkDialect.from_string "mysql"
      = .error ["Could not find subclass of `SplinkDialect` with lookup string '"
          ++ "mysql" ++ "'."]) :=
  ⟨by decide, from_string_resolution "mysql" (by decide)⟩

/-- Counterexample to C6 as stated: the unknown-key error names the key
but does not list the valid keys — it does not even mention `duckdb`. -/
theorem from_string_counterexample :
    SplinkDialect.from_string "mysql"
      = .error ["Could not find subclass of `SplinkDialect` with lookup string 'mysql'."] ∧
    ¬ (("duckdb").toList
        <:+: ("Could not find subclass of `SplinkDialect` with lookup string 'mysql'.").toList) :=
  ⟨rfl, by decide⟩

/-- C7 (amended).  For every column name and pattern, `regex_extract`
returns the dialect's raw extraction expression wrapped in the shared
NULL-on-empty decorator `NULLIF(<raw>, '')` whenever the raw extractor
yields an expression: all capture groups on duckdb and spark, capture
groups 0 and 1 on postgres.  The decorator is applied uniformly: on
dialects whose raw extractor raises (sqlite, athena — no implementation),
the error propagates unchanged through the wrapper. -/
theorem regex_extract_nullif_wrapped (name pattern : String) (capture_group : ℤ) :
    regex_extract .duckdb name pattern capture_group
      = .ok ("NULLIF(regexp_extract(" ++ name ++ ", '" ++ pattern ++ "', "
          ++ toString capture_group ++ "), '')") ∧
    regex_extract .spark name pattern capture_group
      = .ok ("NULLIF(regexp_extract(" ++ name ++ ", '" ++ pattern ++ "', "
          ++ toString capture_group ++ "), '')") ∧
    regex_extract .postgres name pattern 0
      = .ok ("NULLIF(substring(" ++ name ++ " from '(" ++ pattern ++ ")'), '')") ∧
    regex_extract .postgres name pattern 1
      = .ok ("NULLIF(substring(" ++ name ++ " from '" ++ pattern ++ "'), '')") ∧
    regex_extract .sqlite name pattern capture_group
      = .error ["Backend 'sqlite' does not have a 'regex_extract' function"] ∧
    regex_extract .athena name pattern capture_group
      = .error ["Backend 'athena' does not have a 'regex_extract' function"] ∧
    regex_extract .duckdb ("first_name") ("[A-Z]") 1
      = .ok ("NULLIF(regexp_extract(first_name, '[A-Z]', 1), '')") := by
  refine ⟨?_, ?_, ?_, ?_, rfl, rfl, rfl⟩ <;>
  · simp [regex_extract, regex_extract_raw, wrap_in_nullif, Except.map,
      String.append_assoc]
    rw [← String.append_assoc]
    rfl

/-- Counterexample to C7 as stated: on postgres a capture group of 2
makes the raw extractor raise `ValueError`, so `regex_extract` raises
instead of returning a NULLIF-wrapped expression. -/
theorem regex_extract_capture_group_counterexample :
    regex_extract .postgres ("dob") ("[0-9]+") 2
      = .error ["'postgres' backend does not currently support a capture_group greater "
          ++ "than 1. To proceed you must use your own SQL expression"] :=
  rfl

/-- C8.  `explode_arrays_sql` (DuckDB and Spark variants): with no columns
to explode it returns a plain SELECT of the retained columns from the
input table (no unnest/explode); with columns remaining it pops the last
column, unnests it exactly once at the current level while carrying
forward all retained columns and the columns still to explode, and
recurses on the strictly shorter remaining list (termination is by the
length of that list, enforced by the definition).  On the two-column
example each column is unnested exactly once and the base query contains
no unnest at all. -/
theorem explode_arrays_sql_correct (tbl c : String) (rest retain : List String) :
    duckdb_explode_arrays_sql tbl [] retain
        = "select " ++ String.intercalate (",") retain ++ " from " ++ tbl ∧
    spark_explode_arrays_sql tbl [] retain
        = "select " ++ String.intercalate (",") retain ++ " from " ++ tbl ∧
    duckdb_explode_arrays_sql tbl (rest ++ [c]) retain
        = "select " ++ String.intercalate (",")
            (("unnest(" ++ c ++ ") as " ++ c) :: (retain ++ rest))
          ++ "\n                from ("
          ++ duckdb_explode_arrays_sql tbl rest (retain ++ [c]) ++ ")" ∧
    spark_explode_arrays_sql tbl (rest ++ [c]) retain
        = "select " ++ String.intercalate (",")
            (("explode(" ++ c ++ ") as " ++ c) :: (retain ++ rest))
          ++ "\n                from ("
          ++ spark_explode_arrays_sql tbl rest (retain ++ [c]) ++ ")" ∧
    duckdb_explode_arrays_sql ("t") ["a", "b"] ["x"]
        = "select unnest(b) as b,x,a\n                from (select unnest(a) as a,x,b\n                from (select x,b,a from t))" ∧
    spark_explode_arrays_sql ("t") ["a", "b"] ["x"]
        = "select explode(b) as b,x,a\n                from (select explode(a) as a,x,b\n                from (select x,b,a from t))" ∧
    countOcc ("unnest(a") (duckdb_explode_arrays_sql ("t") ["a", "b"] ["x"]) = 1 ∧
    countOcc ("unnest(b") (duckdb_explode_arrays_sql ("t") ["a", "b"] ["x"]) = 1 ∧
    countOcc ("unnest(") (duckdb_explode_arrays_sql ("t") [] ["x", "b", "a"]) = 0 ∧
    countOcc ("explode(a") (spark_explode_arrays_sql ("t") ["a", "b"] ["x"]) = 1 ∧
    countOcc ("explode(b") (spark_explode_arrays_sql ("t") ["a", "b"] ["x"]) = 1 := by
  have hd0 : ∀ (t : String) (r : List String),
      duckdb_explode_arrays_sql t [] r
        = "select " ++ String.intercalate (",") r ++ " from " ++ t := by
    intro t r
    rw [duckdb_explode_arrays_sql.eq_def]
    rw [dif_pos rfl]
  have hs0 : ∀ (t : String) (r : List String),
      spark_explode_arrays_sql t [] r
        = "select " ++ String.intercalate (",") r ++ " from " ++ t := by
    intro t r
    rw [spark_explode_arrays_sql.eq_def]
    rw [dif_pos rfl]
  have hd1 : ∀ (t c0 : String) (r0 ret : List String),
      duckdb_explode_arrays_sql t (r0 ++ [c0]) ret
        = "select " ++ String.intercalate (",")
            (("unnest(" ++ c0 ++ ") as " ++ c0) :: (ret ++ r0))
          ++ "\n                from ("
          ++ duckdb_explode_arrays_sql t r0 (ret ++ [c0]) ++ ")" := by
    intro t c0 r0 ret
    rw [duckdb_explode_arrays_sql.eq_def]
    have h1 : (r0 ++ [c0]).getLastD ("") = c0 := by simp
    have h2 : (r0 ++ [c0]).dropLast = r0 := by simp
    rw [dif_neg (by simp : ¬(r0 ++ [c0] = []))]
    simp only [h1, h2]
  have hs1 : ∀ (t c0 : String) (r0 ret : List String),
      spark_explode_arrays_sql t (r0 ++ [c0]) ret
        = "select " ++ String.intercalate (",")
            (("explode(" ++ c0 ++ ") as " ++ c0) :: (ret ++ r0))
          ++ "\n                from ("
          ++ spark_explode_arrays_sql t r0 (ret ++ [c0]) ++ ")" := by
    intro t c0 r0 ret
    rw [spark_explode_arrays_sql.eq_def]
    have h1 : (r0 ++ [c0]).getLastD ("") = c0 := by simp
    have h2 : (r0 ++ [c0]).dropLast = r0 := by simp
    rw [dif_neg (by simp : ¬(r0 ++ [c0] = []))]
    simp only [h1, h2]
  have e1 : duckdb_explode_arrays_sql ("t") ["a", "b"] ["x"]
      = "select unnest(b) as b,x,a\n                from (select unnest(a) as a,x,b\n                from (select x,b,a from t))" := by
    rw [show (["a", "b"] : List String) = ["a"] ++ ["b"] from rfl, hd1]
    rw [show (["a"] : List String) = ([] : List String) ++ ["a"] from rfl, hd1, hd0]
    rfl
  have e2 : spark_explode_arrays_sql ("t") ["a", "b"] ["x"]
      = "select explode(b) as b,x,a\n                from (select explode(a) as a,x,b\n                from (select x,b,a from t))" := by
    rw [show (["a", "b"] : List String) = ["a"] ++ ["b"] from rfl, hs1]
    rw [show (["a"] : List String) = ([] : List String) ++ ["a"] from rfl, hs1, hs0]
    rfl
  refine ⟨hd0 tbl retain, hs0 tbl retain, hd1 tbl c rest retain, hs1 tbl c rest retain,
    e1, e2, ?_, ?_, ?_, ?_, ?_⟩
  · rw [e1]; decide
  · rw [e1]; decide
  · rw [hd0]; decide
  · rw [e2]; decide
  · rw [e2]; decide

/-- The transform operations a `ColumnExpression` can queue
(`splink/column_expression.py`): `lower`, `substr(start, length)`,
`regex_extract(pattern)`, `try_parse_date(date_format)`.  The
`regexExtract` operation stores only the pattern: the Python method binds
only `pattern` into the stored partial application and drops
`capture_group` (TODO in the source). -/
inductive TransformOp
  | lower
  | substr (start length : ℤ)
  | regexExtract (pattern : String)
  | tryParseDate (date_format : Option String)
deriving DecidableEq, Repr

/-- A store of Python list objects holding transform operations:
`lists i` is the contents of the list object with identity `i`; identities
`≥ next` are unallocated.  Models Python list identity and in-place
mutation for the `operations` attribute of `ColumnExpression`. -/
structure OpStore where
  lists : ℕ → List TransformOp
  next : ℕ

/-- A `ColumnExpression` as a Python object for the aliasing analysis:
the raw SQL string plus the identity of its `operations` list object. -/
structure ColumnExpressionObj where
  raw_sql_expression : String
  operations : ℕ

/-- Allocate a fresh list object with the given contents. -/
def OpStore.alloc (σ : OpStore) (contents : List TransformOp) : ℕ × OpStore :=
  (σ.next, ⟨fun j => if j = σ.next then contents else σ.lists j, σ.next + 1⟩)

/-- `list.append(op)`: in-place mutation of list object `i`. -/
def OpStore.appendOp (σ : OpStore) (i : ℕ) (op : TransformOp) : OpStore :=
  ⟨fun j => if j = i then σ.lists j ++ [op] else σ.lists j, σ.next⟩

/-- `ColumnExpression._clone`: `clone = copy(self)` (shallow copy, fields
shared) followed by `clone.operations = [op for op in self.operations]`,
which rebinds the clone's `operations` attribute to a freshly allocated
list object with the same contents. -/
def clone_expr (self : ColumnExpressionObj) (σ : OpStore) :
    ColumnExpressionObj × OpStore :=
  let a := σ.alloc (σ.lists self.operations)
  ({ raw_sql_expression := self.raw_sql_expression, operations := a.1 }, a.2)

/-- The shared shape of the four transform methods (`lower`, `substr`,
`regex_extract`, `try_parse_date`): `clone = self._clone()`,
`clone.operations.append(op)`, `return clone`. -/
def apply_transform (self : ColumnExpressionObj) (σ : OpStore)
    (op : TransformOp) : ColumnExpressionObj × OpStore :=
  let cs := clone_expr self σ
  (cs.1, cs.2.appendOp cs.1.operations op)

/-- `ColumnExpression.lower`. -/
def ColumnExpressionObj.lower (self : ColumnExpressionObj) (σ : OpStore) :
    ColumnExpressionObj × OpStore :=
  apply_transform self σ .lower

/-- `ColumnExpression.substr(start, length)`. -/
def ColumnExpressionObj.substr (self : ColumnExpressionObj) (σ : OpStore)
    (start length : ℤ) : ColumnExpressionObj × OpStore :=
  apply_transform self σ (.substr start length)

/-- `ColumnExpression.regex_extract(pattern, capture_group)`: the stored
operation keeps only the pattern; `capture_group` is accepted and
dropped. -/
def ColumnExpressionObj.regex_extract (self : ColumnExpressionObj) (σ : OpStore)
    (pattern : String) (_capture_group : ℤ) : ColumnExpressionObj × OpStore :=
  apply_transform self σ (.regexExtract pattern)

/-- `ColumnExpression.try_parse_date(date_format)`. -/
def ColumnExpressionObj.try_parse_date (self : ColumnExpressionObj) (σ : OpStore)
    (date_format : Option String) : ColumnExpressionObj × OpStore :=
  apply_transform self σ (.tryParseDate date_format)

/-- C9.  Every transform method returns a fresh `ColumnExpression` whose
raw SQL string equals the original's and whose operations list is a newly
allocated object (distinct identity) holding the original operations plus
the new transform; the original's operations list is untouched, so no two
derived expressions share mutable state.  The last four conjuncts identify
the four named methods with the common clone-append shape. -/
theorem transform_methods_never_mutate_original (self : ColumnExpressionObj)
    (σ : OpStore) (op : TransformOp) (start length capture_group : ℤ)
    (pattern : String) (date_format : Option String)
    (hwf : self.operations < σ.next) :
    (apply_transform self σ op).1.raw_sql_expression = self.raw_sql_expression ∧
    (apply_transform self σ op).1.operations ≠ self.operations ∧
    (apply_transform self σ op).2.lists self.operations = σ.lists self.operations ∧
    (apply_transform self σ op).2.lists (apply_transform self σ op).1.operations
      = σ.lists self.operations ++ [op] ∧
    (apply_transform self σ op).1.operations < (apply_transform self σ op).2.next ∧
    self.lower σ = apply_transform self σ .lower ∧
    self.substr σ start length = apply_transform self σ (.substr start length) ∧
    self.regex_extract σ pattern capture_group
      = apply_transform self σ (.regexExtract pattern) ∧
    self.try_parse_date σ date_format
      = apply_transform self σ (.tryParseDate date_format) := by
  have hne : σ.next ≠ self.operations := (Nat.ne_of_lt hwf).symm
  refine ⟨rfl, ?_, ?_, ?_, ?_, rfl, rfl, rfl, rfl⟩
  · show σ.next ≠ self.operations
    exact hne
  · show (if self.operations = σ.next
        then (if self.operations = σ.next then σ.lists self.operations
          else σ.lists self.operations) ++ [op]
        else if self.operations = σ.next then σ.lists self.operations
          else σ.lists self.operations)
      = σ.lists self.operations
    rw [if_neg (fun h => hne h.symm), if_neg (fun h => hne h.symm)]
  · show (if σ.next = σ.next
        then (if σ.next = σ.next then σ.lists self.operations
          else σ.lists σ.next) ++ [op]
        else if σ.next = σ.next then σ.lists self.operations else σ.lists σ.next)
      = σ.lists self.operations ++ [op]
    rw [if_pos rfl, if_pos rfl]
  · show σ.next < σ.next + 1
    exact Nat.lt_succ_self _

/-- Witness for `transform_methods_never_mutate_original` on a fresh store
with one allocated (empty) operations list. -/
theorem transform_methods_never_mutate_original_witness :
    ((⟨"first_name", 0⟩ : ColumnExpressionObj).operations
        < (⟨fun _ => [], 1⟩ : OpStore).next) ∧
    ((apply_transform ⟨"first_name", 0⟩ ⟨fun _ => [], 1⟩ .lower).1.raw_sql_expression
        = (⟨"first_name", 0⟩ : ColumnExpressionObj).raw_sql_expression ∧
    (apply_transform ⟨"first_name", 0⟩ ⟨fun _ => [], 1⟩ .lower).1.operations
        ≠ (⟨"first_name", 0⟩ : ColumnExpressionObj).operations ∧
    (apply_transform ⟨"first_name", 0⟩ ⟨fun _ => [], 1⟩ .lower).2.lists
        (⟨"first_name", 0⟩ : ColumnExpressionObj).operations
      = (⟨fun _ => [], 1⟩ : OpStore).lists
          (⟨"first_name", 0⟩ : ColumnExpressionObj).operations ∧
    (apply_transform ⟨"first_name", 0⟩ ⟨fun _ => [], 1⟩ .lower).2.lists
        (apply_transform ⟨"first_name", 0⟩ ⟨fun _ => [], 1⟩ .lower).1.operations
      = (⟨fun _ => [], 1⟩ : OpStore).lists
          (⟨"first_name", 0⟩ : ColumnExpressionObj).operations ++ [.lower] ∧
    (apply_transform ⟨"first_name", 0⟩ ⟨fun _ => [], 1⟩ .lower).1.operations
        < (apply_transform ⟨"first_name", 0⟩ ⟨fun _ => [], 1⟩ .lower).2.next ∧
    ColumnExpressionObj.lower ⟨"first_name", 0⟩ ⟨fun _ => [], 1⟩
        = apply_transform ⟨"first_name", 0⟩ ⟨fun _ => [], 1⟩ .lower ∧
    ColumnExpressionObj.substr ⟨"first_name", 0⟩ ⟨fun _ => [], 1⟩ 1 2
        = apply_transform ⟨"first_name", 0⟩ ⟨fun _ => [], 1⟩ (.substr 1 2) ∧
    ColumnExpressionObj.regex_extract ⟨"first_name", 0⟩ ⟨fun _ => [], 1⟩ ("x") 1
        = apply_transform ⟨"first_name", 0⟩ ⟨fun _ => [], 1⟩ (.regexExtract ("x")) ∧
    ColumnExpressionObj.try_parse_date ⟨"first_name", 0⟩ ⟨fun _ => [], 1⟩ none
        = apply_transform ⟨"first_name", 0⟩ ⟨fun _ => [], 1⟩ (.tryParseDate none)) :=
  ⟨by decide,
    transform_methods_never_mutate_original ⟨"first_name", 0⟩ ⟨fun _ => [], 1⟩
      .lower 1 2 1 ("x") none (by decide)⟩

/-- Boolean substring containment (Python `pat in s`), tested at every
starting position. -/
def containsSubstr (pat : List Char) : List Char → Bool
  | [] => pat.isEmpty
  | c :: rest => pat.isPrefixOf (c :: rest) || containsSubstr pat rest

/-- A match of the regex `\([^)]*\)` used by
`ColumnExpression.parse_input_string`: the string has an opening
parenthesis with a closing parenthesis somewhere after it (taking the
closest pair shows the two conditions equivalent). -/
def hasParenPair : List Char → Bool
  | [] => false
  | c :: rest => (c == '(' && rest.contains ')') || hasParenPair rest

/-- Modelled from the spec: the external collaborators used by
`ColumnExpression` name resolution, which are not part of the source under
inspection — the third-party sqlglot parser and the repository helpers
`SqlglotColumnTreeBuilder.from_raw_column_name_or_column_reference`
(backend-specific identifier quoting, `splink/input_column.py`) and
`add_suffix_to_all_column_identifiers` (structural suffixing of every
column identifier, `splink/sql_transform.py`).  The spec specifies only
their contracts, so they are carried as opaque function parameters:
`column_builder dialect raw` quotes a bare column reference,
`transpile op dialect sql` applies one queued transform to the current SQL
text, and `add_suffix sql suffix sqlglot_name` renames every column
identifier. -/
structure NameResolutionDeps where
  column_builder : SplinkDialect → String → String
  transpile : TransformOp → SplinkDialect → String → String
  add_suffix : String → String → String → String

/-- `ColumnExpression` seen through its attributes: `sql_dialect = none`
models the ABSENCE of the attribute — `__init__` assigns
`self.sql_dialect` only when the argument is not `None`. -/
structure ColumnExpression where
  raw_sql_expression : String
  operations : List TransformOp
  sql_dialect : Option SplinkDialect

/-- `ColumnExpression.__init__(sql_expression, sql_dialect=None)`:
stores the raw string, an empty operations list, and the dialect
attribute only if one was supplied. -/
def ColumnExpression.init (sql_expression : String)
    (sql_dialect : Option SplinkDialect) : ColumnExpression :=
  ⟨sql_expression, [], sql_dialect⟩

/-- Reading `self.sql_dialect`: Python raises `AttributeError` when the
attribute was never assigned. -/
def ColumnExpression.sql_dialect_attr (self : ColumnExpression) :
    Except String SplinkDialect :=
  match self.sql_dialect with
  | some d => .ok d
  | none =>
    .error ("AttributeError: 'ColumnExpression' object has no attribute 'sql_dialect'")

/-- `ColumnExpression.parse_input_string`: raw strings containing a
parenthesised group or `||` are passed through as SQL expressions; bare
column references are quoted via the column tree builder. -/
def ColumnExpression.parse_input_string (deps : NameResolutionDeps)
    (self : ColumnExpression) (dialect : SplinkDialect) : String :=
  if hasParenPair self.raw_sql_expression.toList then self.raw_sql_expression
  else if containsSubstr ("||").toList self.raw_sql_expression.toList then
    self.raw_sql_expression
  else deps.column_builder dialect self.raw_sql_expression

/-- `ColumnExpression.apply_operations`: fold the queued transforms
left-to-right over the current SQL text. -/
def ColumnExpression.apply_operations (deps : NameResolutionDeps)
    (name : String) (dialect : SplinkDialect) (ops : List TransformOp) : String :=
  ops.foldl (fun n op => deps.transpile op dialect n) name

/-- `ColumnExpression.name`: reads `self.sql_dialect` (which can raise
`AttributeError`), parses the raw input, applies the transforms. -/
def ColumnExpression.name (deps : NameResolutionDeps)
    (self : ColumnExpression) : Except String String := do
  let d ← self.sql_dialect_attr
  let sql_expression := self.parse_input_string deps d
  pure (ColumnExpression.apply_operations deps sql_expression d self.operations)

/-- `ColumnExpression.name_l`: as `name`, but suffixes every column
identifier with `_l` before applying the transforms. -/
def ColumnExpression.name_l (deps : NameResolutionDeps)
    (self : ColumnExpression) : Except String String := do
  let d ← self.sql_dialect_attr
  let sql_expression := self.parse_input_string deps d
  let base_name := deps.add_suffix sql_expression ("_l") d.sqlglot_name
  pure (ColumnExpression.apply_operations deps base_name d self.operations)

/-- `ColumnExpression.name_r`: as `name_l` with suffix `_r`. -/
def ColumnExpression.name_r (deps : NameResolutionDeps)
    (self : ColumnExpression) : Except String String := do
  let d ← self.sql_dialect_attr
  let sql_expression := self.parse_input_string deps d
  let base_name := deps.add_suffix sql_expression ("_r") d.sqlglot_name
  pure (ColumnExpression.apply_operations deps base_name d self.operations)

/-- `ColumnExpression.output_column_name`: every character outside
ASCII letters, digits and underscore is replaced by an underscore
(a character-by-character join, written over the character list). -/
def ColumnExpression.output_column_name (self : ColumnExpression) : String :=
  String.mk (self.raw_sql_expression.data.map
    (fun ch => if ch.isAlpha || ch.isDigit || ch == '_' then ch else '_'))

/-- `ColumnExpression.label`: raw text, prefixed with a `transformed`
marker when at least one transform is queued. -/
def ColumnExpression.label (self : ColumnExpression) : String :=
  if self.operations.length > 0 then "transformed " ++ self.raw_sql_expression
  else self.raw_sql_expression

/-- C10.  A `ColumnExpression` constructed without a dialect and never
bound carries no `sql_dialect` attribute, so `name`, `name_l` and `name_r`
fail with `AttributeError` for every raw string, operation list and
collaborator implementation, while `output_column_name` and `label` do not
read the attribute at all: they are insensitive to it and compute from the
raw string and operation count alone (shown on the spec's example
input). -/
theorem unbound_dialect_attribute_error (deps : NameResolutionDeps)
    (raw : String) (ops : List TransformOp) (d : SplinkDialect) :
    ColumnExpression.name deps ⟨raw, ops, none⟩
      = .error ("AttributeError: 'ColumnExpression' object has no attribute 'sql_dialect'") ∧
    ColumnExpression.name_l deps ⟨raw, ops, none⟩
      = .error ("AttributeError: 'ColumnExpression' object has no attribute 'sql_dialect'") ∧
    ColumnExpression.name_r deps ⟨raw, ops, none⟩
      = .error ("AttributeError: 'ColumnExpression' object has no attribute 'sql_dialect'") ∧
    ColumnExpression.init raw none = ⟨raw, [], none⟩ ∧
    ColumnExpression.output_column_name ⟨raw, ops, none⟩
      = ColumnExpression.output_column_name ⟨raw, ops, some d⟩ ∧
    ColumnExpression.label ⟨raw, ops, none⟩
      = ColumnExpression.label ⟨raw, ops, some d⟩ ∧
    ColumnExpression.output_column_name ⟨"first name (nickname)", [], none⟩
      = "first_name__nickname_" ∧
    ColumnExpression.label ⟨"first name (nickname)", [TransformOp.lower], none⟩
      = "transformed first name (nickname)" :=
  ⟨rfl, rfl, rfl, rfl, rfl, rfl, rfl, rfl⟩
